import Mathlib

/-!
Shallow embedding of the TestRail API client (`testrail.py`) of the
repository `python-serverless-app`.

Modelling conventions:

* The remote TestRail server is modelled by a `Server` value giving, for
  each endpoint the claims touch, the data the server would return:
  the project list (`get_projects`), the suites of a project
  (`get_suites/{project_id}`), the plan list with their entries
  (`get_plans/{project_id}`, `get_plan/{plan_id}`) and the tests of a run
  (`get_tests/{run_id}`).
* Each client operation is a pure Lean function over the `Server` and the
  mutable fields of the Python object (`Session`).  Besides its Python
  return value (in an `Except PyErr` for operations that can raise) it
  returns the list of HTTP requests it issued, in order, so that claims
  about "no HTTP request is made" are statable.  An operation that mutates
  the object state also returns the new `Session`.
* Python `return False` outcomes are the constructor `OpRet.bool_false`;
  an operation that ends in a POST returns `OpRet.posted` (the JSON reply
  of the server to a write is never inspected by the code, so it is not
  modelled).
* Python truthiness is modelled explicitly where the source relies on it:
  `if case_ids:` is false for `None` and for `[]`; `if self.__project_id:`
  is false for `None` and for the integer `0`; `if not test_id:` is true
  for `False`, `None` and `0`.
* The dictionaries the client POSTs are modelled structurally, field by
  field, by `PlanEntryBody`, `UpdatePlanEntryBody` and `ResultsBody`.
* `format_testrun` prepends the current Pacific-time date; real time is
  not modellable, so the formatted date string is taken as a parameter
  `now` of the operations that use it.
* Python's `list(set(a) - set(b))` produces the distinct elements of `a`
  not in `b` in an unspecified order; the model fixes the admissible order
  `a.dedup.filter (· ∉ b)`.  Every property proved about it is
  order-insensitive.
* Tests, projects, suites, plans and runs are modelled with the fields the
  client reads (`id`, `case_id`, `name`, `entry_id`, ...) present and
  typed, as the server always supplies them.
-/

/-- Python exceptions the client can raise: `APIError` (transport layer),
`EnvironmentError` (unresolved project/suite id), and the built-in
`TypeError` / `IndexError` that unguarded subscripts can raise. -/
inductive PyErr where
  | apiError (msg : String)
  | environmentError (msg : String)
  | typeError
  | indexError
deriving DecidableEq, Repr

/-- HTTP method of a request issued by `__send_request`. -/
inductive Method where
  | get
  | post
deriving DecidableEq, Repr

/-- One record of `get_tests/{run_id}`: a case instantiated in a run.
The client reads its run-scoped `id` and its `case_id`. -/
structure Test where
  id : Nat
  case_id : Nat
deriving DecidableEq, Repr

/-- One record of `get_projects`. -/
structure Project where
  id : Nat
  name : String
deriving DecidableEq, Repr

/-- One record of `get_suites/{project_id}`. -/
structure Suite where
  id : Nat
  name : String
deriving DecidableEq, Repr

/-- One run inside a plan entry, as returned by `get_plan`:
the client reads `runs[0]["name"]`, `runs[0]["id"]` and
`runs[0]["entry_id"]`. -/
structure Run where
  id : Nat
  name : String
  entry_id : Nat
deriving DecidableEq, Repr

/-- One entry of a plan, as returned by `get_plan`. -/
structure Entry where
  name : String
  runs : List Run
deriving DecidableEq, Repr

/-- One test plan; `get_plans/{project_id}` lists the plans of a project,
`get_plan/{plan_id}` returns one plan with its entries. -/
structure Plan where
  id : Nat
  project_id : Nat
  name : String
  entries : List Entry
deriving DecidableEq, Repr

/-- The nested run object inside the body POSTed to `add_plan_entry`. -/
structure PlanEntryRun where
  include_all : Bool
  case_ids : Option (List Nat)
  config_ids : List Nat
deriving DecidableEq, Repr

/-- The body POSTed to `add_plan_entry/{plan_id}` by
`add_default_test_run_entry_to_plan`. -/
structure PlanEntryBody where
  suite_id : Nat
  name : String
  assignedto_id : Option Nat
  include_all : Bool
  config_ids : List Nat
  case_ids : Option (List Nat)
  runs : List PlanEntryRun
deriving DecidableEq, Repr

/-- The body POSTed to `update_plan_entry/{plan_id}/{entry_id}` by
`update_test_run`. -/
structure UpdatePlanEntryBody where
  include_all : Bool
  case_ids : List Nat
deriving DecidableEq, Repr

/-- One result record inside the body POSTed to `add_results/{run_id}`. -/
structure ResultRecord where
  test_id : Nat
  status_id : Nat
  elapsed : String
  comment : String
deriving DecidableEq, Repr

/-- The body POSTed to `add_results/{run_id}` by `update_test_result`. -/
structure ResultsBody where
  results : List ResultRecord
deriving DecidableEq, Repr

/-- A POSTed JSON body (GET requests carry no body). -/
inductive PostBody where
  | planEntry (b : PlanEntryBody)
  | updatePlanEntry (b : UpdatePlanEntryBody)
  | results (b : ResultsBody)
deriving DecidableEq, Repr

/-- One HTTP request issued against the API, with its body when POST. -/
structure Request where
  method : Method
  uri : String
  body : Option PostBody
deriving DecidableEq, Repr

/-- The state of the remote TestRail server, i.e. what its read endpoints
would answer. -/
structure Server where
  projects : List Project
  suites : Nat → List Suite
  plans : List Plan
  tests : Nat → List Test

/-- The mutable fields of the `Testrail` object that the modelled
operations read or write: the resolved ids and the run-case cache
`cases_in_run` (a mapping from run id to the test list of that run,
modelled as an association list). -/
structure Session where
  project_id : Option Nat
  suite_id : Option Nat
  run_id : Option Nat
  cases_in_run : List (Nat × List Test)
deriving Repr

/-- Python dict lookup `d[k]` / `k in d` on the modelled
`cases_in_run` mapping. -/
def cacheLookup (c : List (Nat × List Test)) (k : Nat) : Option (List Test) :=
  (c.find? (fun p => p.1 == k)).map (fun p => p.2)

/-- Python truthiness of the optional integer fields
(`None` and `0` are falsy). -/
def pyTruthyNat : Option Nat → Bool
  | none => false
  | some n => n != 0

/-- Python truthiness of the optional `case_ids` argument
(`None` and `[]` are falsy). -/
def pyTruthyList : Option (List Nat) → Bool
  | none => false
  | some [] => false
  | some (_ :: _) => true

/-- Is `needle` a prefix of `hay` (on character lists)? -/
def startsWithChars : List Char → List Char → Bool
  | [], _ => true
  | _ :: _, [] => false
  | a :: as, b :: bs => a == b && startsWithChars as bs

/-- Substring containment on character lists. -/
def charsContain (hay needle : List Char) : Bool :=
  match hay with
  | [] => needle.isEmpty
  | _ :: t => startsWithChars needle hay || charsContain t needle

/-- The Python expression `needle in hay` on strings:
substring containment. -/
def pyIn (needle hay : String) : Bool :=
  charsContain hay.data needle.data

/-- The message of the `EnvironmentError` raised by the `project_id`
property. -/
def project_id_msg : String :=
  "Define the project name as an object attribute like so\nclient.project = \x27Velocloud\x27"

/-- The message of the `EnvironmentError` raised by the `suite_id`
property. -/
def suite_id_msg : String :=
  "Define the suite name as an object attribute like so\nclient.suite = \x27Master\x27"

/-- The `project_id` property getter: returns the stored id if truthy,
otherwise raises `EnvironmentError`. -/
def project_id_prop (sess : Session) : Except PyErr Nat :=
  match sess.project_id with
  | some i => if i != 0 then .ok i else .error (.environmentError project_id_msg)
  | none => .error (.environmentError project_id_msg)

/-- The `suite_id` property getter: returns the stored id if truthy,
otherwise raises `EnvironmentError`. -/
def suite_id_prop (sess : Session) : Except PyErr Nat :=
  match sess.suite_id with
  | some i => if i != 0 then .ok i else .error (.environmentError suite_id_msg)
  | none => .error (.environmentError suite_id_msg)

/-- The pattern `if not project_id: project_id = self.project_id` used by
`__get_suites`, `_get_plans`, `_get_runs`: a falsy argument falls back to
the (possibly raising) property. -/
def resolve_default_project_id (sess : Session) (project_id : Option Nat) :
    Except PyErr Nat :=
  if pyTruthyNat project_id then .ok (project_id.getD 0)
  else project_id_prop sess

/-- `get_cases_in_run(run_id)`: `GET get_tests/{run_id}`. -/
def get_cases_in_run (server : Server) (run_id : Nat) :
    List Test × List Request :=
  (server.tests run_id, [⟨.get, "get_tests/" ++ toString run_id, none⟩])

/-- `__get_projects()`: `GET get_projects`. -/
def get_projects (server : Server) : List Project × List Request :=
  (server.projects, [⟨.get, "get_projects", none⟩])

/-- `__get_project_by_name(project_name)`: lists the projects and returns
the first whose name equals `project_name` exactly, else `None`. -/
def get_project_by_name (server : Server) (project_name : String) :
    Option Project × List Request :=
  let g := get_projects server
  (g.1.find? (fun p => project_name == p.name), g.2)

/-- `__get_suites(project_id)`: `GET get_suites/{project_id}`, falling back
to the `project_id` property when the argument is falsy. -/
def get_suites (server : Server) (sess : Session) (project_id : Option Nat) :
    Except PyErr (List Suite) × List Request :=
  match resolve_default_project_id sess project_id with
  | .error e => (.error e, [])
  | .ok pid => (.ok (server.suites pid), [⟨.get, "get_suites/" ++ toString pid, none⟩])

/-- `__get_suite_by_name(suite_name, project_id)`: lists the suites of the
project and returns the first whose name equals `suite_name` exactly, else
`None`. -/
def get_suite_by_name (server : Server) (sess : Session) (suite_name : String)
    (project_id : Option Nat) : Except PyErr (Option Suite) × List Request :=
  let g := get_suites server sess project_id
  match g.1 with
  | .error e => (.error e, g.2)
  | .ok suites => (.ok (suites.find? (fun s => suite_name == s.name)), g.2)

/-- `_get_plans(project_id)`: `GET get_plans/{project_id}`, falling back to
the `project_id` property when the argument is falsy. -/
def get_plans (server : Server) (sess : Session) (project_id : Option Nat) :
    Except PyErr (List Plan) × List Request :=
  match resolve_default_project_id sess project_id with
  | .error e => (.error e, [])
  | .ok pid => (.ok (server.plans.filter (fun p => p.project_id == pid)),
                [⟨.get, "get_plans/" ++ toString pid, none⟩])

/-- `_get_plan_by_name(plan_name, project_id)`: lists the plans of the
project and returns the first whose name equals `plan_name` exactly, else
`None`. -/
def get_plan_by_name (server : Server) (sess : Session) (plan_name : String)
    (project_id : Option Nat) : Except PyErr (Option Plan) × List Request :=
  let g := get_plans server sess project_id
  match g.1 with
  | .error e => (.error e, g.2)
  | .ok plans => (.ok (plans.find? (fun p => plan_name == p.name)), g.2)

/-- `_get_plan(plan_id)`: `GET get_plan/{plan_id}`; an unknown id is an
HTTP error from the server, hence `APIError`. -/
def get_plan (server : Server) (plan_id : Nat) :
    Except PyErr Plan × List Request :=
  (match server.plans.find? (fun p => p.id == plan_id) with
   | some p => .ok p
   | none => .error (.apiError "TestRail API returned HTTP 400"),
   [⟨.get, "get_plan/" ++ toString plan_id, none⟩])

/-- `format_testrun(test_run)`: prepends the current Pacific date; the
formatted date string is the parameter `now`. -/
def format_testrun (now : String) (test_run : String) : String :=
  now ++ " - " ++ test_run

/-- Python return value of the write operations: the literal `False`, or
the server's reply to the final POST. -/
inductive OpRet where
  | bool_false
  | posted
deriving DecidableEq, Repr

/-- `add_default_test_run_entry_to_plan(test_run_name, plan_name, case_ids)`:
computes `include_all` from the truthiness of `case_ids`, applies the
empty-list guard, resolves the plan by name (raising `APIError` when
absent), formats the run name, reads the `suite_id` property and POSTs the
plan-entry body. -/
def add_default_test_run_entry_to_plan (server : Server) (sess : Session)
    (test_run_name plan_name : String) (case_ids : Option (List Nat))
    (now : String) : Except PyErr OpRet × List Request :=
  let include_all := if pyTruthyList case_ids then false else true
  if !include_all && !pyTruthyList case_ids then (.ok .bool_false, [])
  else
    let gp := get_plan_by_name server sess plan_name none
    match gp.1 with
    | .error e => (.error e, gp.2)
    | .ok none =>
        (.error (.apiError ("testrail plan " ++ plan_name ++ " not found")), gp.2)
    | .ok (some plan) =>
      let trn := format_testrun now test_run_name
      match suite_id_prop sess with
      | .error e => (.error e, gp.2)
      | .ok sid =>
        let body : PlanEntryBody :=
          { suite_id := sid
            name := trn
            assignedto_id := none
            include_all := include_all
            config_ids := []
            case_ids := case_ids
            runs := [{ include_all := false, case_ids := case_ids, config_ids := [] }] }
        (.ok .posted,
         gp.2 ++ [⟨.post, "add_plan_entry/" ++ toString plan.id, some (.planEntry body)⟩])

/-- `check_test_id_duplicate(test_list, run_id)`: `GET get_tests/{run_id}`,
collects the `case_id`s already in the run and returns
`list(set(test_list) - set(existing))` (one admissible order of it). -/
def check_test_id_duplicate (server : Server) (test_list : List Nat)
    (run_id : Nat) : List Nat × List Request :=
  let test_case_list := server.tests run_id
  let new_list := test_case_list.map (fun t => t.case_id)
  (test_list.dedup.filter (fun x => !new_list.contains x),
   [⟨.get, "get_tests/" ++ toString run_id, none⟩])

/-- The loop body of `get_run_id`: scan the plan entries in order and
return `entry["runs"][0]["id"]` for the first entry whose first run's name
contains `run_name` as a substring; `entry["runs"][0]` raises `IndexError`
when the entry has no runs; falling off the loop returns `None`. -/
def scan_entries (run_name : String) : List Entry → Except PyErr (Option Nat)
  | [] => .ok none
  | e :: rest =>
    match e.runs with
    | [] => .error .indexError
    | r0 :: _ =>
      if pyIn run_name r0.name then .ok (some r0.id)
      else scan_entries run_name rest

/-- `get_run_id(plan_name, run_name)`: resolves the plan by name
(`plan["id"]` raises `TypeError` when the plan is `None`), fetches the full
plan and scans its entries. -/
def get_run_id (server : Server) (sess : Session) (plan_name run_name : String) :
    Except PyErr (Option Nat) × List Request :=
  let gp := get_plan_by_name server sess plan_name none
  match gp.1 with
  | .error e => (.error e, gp.2)
  | .ok none => (.error .typeError, gp.2)
  | .ok (some plan) =>
    let cp := get_plan server plan.id
    match cp.1 with
    | .error e => (.error e, gp.2 ++ cp.2)
    | .ok complete_plan =>
      (scan_entries run_name complete_plan.entries, gp.2 ++ cp.2)

/-- `update_test_run(test_run_name, plan_name, case_ids)`: resolves the run
id, re-resolves the plan, fetches its detail, finds the first entry whose
name contains `test_run_name`, returns `False` when none matches,
deduplicates the incoming ids against the run, returns `False` when
nothing new remains, appends the existing case ids and POSTs the merged
list with `include_all` disabled.  When the entry name matched but
`get_run_id` found no run, the Python code issues `GET get_tests/None`,
which the server rejects, so `APIError` is raised. -/
def update_test_run (server : Server) (sess : Session)
    (test_run_name plan_name : String) (case_ids : List Nat) :
    Except PyErr OpRet × List Request :=
  let gr := get_run_id server sess plan_name test_run_name
  match gr.1 with
  | .error e => (.error e, gr.2)
  | .ok test_run_id =>
    let gp := get_plan_by_name server sess plan_name none
    match gp.1 with
    | .error e => (.error e, gr.2 ++ gp.2)
    | .ok none => (.error .typeError, gr.2 ++ gp.2)
    | .ok (some plan) =>
      let gd := get_plan server plan.id
      match gd.1 with
      | .error e => (.error e, gr.2 ++ gp.2 ++ gd.2)
      | .ok plan_detail =>
        let log0 := gr.2 ++ gp.2 ++ gd.2
        match plan_detail.entries.find? (fun e => pyIn test_run_name e.name) with
        | none => (.ok .bool_false, log0)
        | some elem =>
          match elem.runs with
          | [] => (.error .indexError, log0)
          | r0 :: _ =>
            let entry_id := r0.entry_id
            match test_run_id with
            | none =>
              (.error (.apiError "TestRail API returned HTTP 400"),
               log0 ++ [⟨.get, "get_tests/None", none⟩])
            | some rid =>
              let ctd := check_test_id_duplicate server case_ids rid
              let log1 := log0 ++ ctd.2
              if ctd.1.isEmpty then (.ok .bool_false, log1)
              else
                let g := get_cases_in_run server rid
                let merged := ctd.1 ++ g.1.map (fun t => t.case_id)
                let body : UpdatePlanEntryBody :=
                  { include_all := false, case_ids := merged }
                (.ok .posted,
                 log1 ++ g.2 ++
                 [⟨.post,
                   "update_plan_entry/" ++ toString plan.id ++ "/" ++ toString entry_id,
                   some (.updatePlanEntry body)⟩])

/-- The `run_id` property setter: stores the id and replaces the whole
`cases_in_run` mapping by the single binding for this run. -/
def set_run_id (server : Server) (sess : Session) (run_id : Nat) :
    Session × List Request :=
  let g := get_cases_in_run server run_id
  ({ sess with run_id := some run_id, cases_in_run := [(run_id, g.1)] }, g.2)

/-- The test list `__check_case_in_run` operates on: the cached list when
`run_id` is a key of `cases_in_run`, else a fresh fetch. -/
def tc_list_of (server : Server) (sess : Session) (run_id : Nat) : List Test :=
  match cacheLookup sess.cases_in_run run_id with
  | none => server.tests run_id
  | some l => l

/-- `__check_case_in_run(run_id, case_id)`: takes the cached test list for
the run, or fetches it (without storing it) when `run_id` is not a cache
key; returns the run-scoped `id` of the first test whose `case_id`
matches, else the falsy `False` (modelled `none`). -/
def check_case_in_run (server : Server) (sess : Session) (run_id case_id : Nat) :
    Option Nat × List Request :=
  let fetch :=
    match cacheLookup sess.cases_in_run run_id with
    | none => get_cases_in_run server run_id
    | some l => (l, [])
  ((fetch.1.find? (fun t => t.case_id == case_id)).map (fun t => t.id), fetch.2)

/-- The `result_map` dict built in `__init__`. -/
def result_map : List (String × Nat) := [("passed", 1), ("failed", 5)]

/-- Python `dict.get(k, default)` on a modelled string-keyed dict. -/
def dictGetD (d : List (String × Nat)) (k : String) (dflt : Nat) : Nat :=
  match d.find? (fun p => p.1 == k) with
  | some p => p.2
  | none => dflt

/-- Two-digit zero padding, as `time.strftime` does for `%H`, `%M`, `%S`. -/
def pad2 (n : Nat) : String :=
  if n < 10 then "0" ++ toString n else toString n

/-- `time.strftime("%Hh %Mm %Ss", time.gmtime(secs))` for a whole number
of seconds (the code applies `math.ceil` to the float duration first; the
model takes the resulting integer). -/
def strftimeHMS (secs : Nat) : String :=
  pad2 (secs / 3600 % 24) ++ "h " ++ pad2 (secs / 60 % 60) ++ "m " ++ pad2 (secs % 60) ++ "s"

/-- The fields of the pytest `TestReport` that `update_test_result`
reads. `duration` is `math.ceil(report.duration)` in seconds. -/
structure Report where
  outcome : String
  duration : Nat
  longreprtext : String
deriving DecidableEq, Repr

/-- `update_test_result(run_id, case_id, report)`: resolves `case_id` via
`__check_case_in_run`; a falsy resolution (`False` or the integer `0`)
returns `False`; otherwise POSTs one result record with the mapped status,
the formatted elapsed time and the report text.  The session is returned
unchanged: the source never writes `self.cases_in_run` here. -/
def update_test_result (server : Server) (sess : Session) (run_id case_id : Nat)
    (report : Report) : Except PyErr OpRet × Session × List Request :=
  let c := check_case_in_run server sess run_id case_id
  match c.1 with
  | none => (.ok .bool_false, sess, c.2)
  | some test_id =>
    if test_id == 0 then (.ok .bool_false, sess, c.2)
    else
      let data : ResultsBody :=
        ⟨[⟨test_id, dictGetD result_map report.outcome 5,
           strftimeHMS report.duration, report.longreprtext⟩]⟩
      (.ok .posted, sess,
       c.2 ++ [⟨.post, "add_results/" ++ toString run_id, some (.results data)⟩])

/-- A concrete run used in witnesses and counterexamples. -/
def sampleRun : Run := ⟨7, "2026 - run1", 9⟩

/-- A concrete plan entry whose name carries a timestamp prefix. -/
def sampleEntry : Entry := ⟨"2026 - run1", [sampleRun]⟩

/-- A concrete plan holding `sampleEntry`. -/
def samplePlan : Plan := ⟨3, 1, "myplan", [sampleEntry]⟩

/-- A concrete server: one project, one suite, one plan, and run 7
holding the single case 100 as test 70. -/
def sampleServer : Server :=
  { projects := [⟨1, "Velocloud"⟩]
    suites := fun _ => [⟨2, "Master"⟩]
    plans := [samplePlan]
    tests := fun r => if r == 7 then [⟨70, 100⟩] else [] }

/-- A session with project and suite resolved and an empty run-case
cache. -/
def sampleSession : Session := ⟨some 1, some 2, none, []⟩

/-- A report for a passed one-minute test. -/
def sampleReport : Report := ⟨"passed", 61, ""⟩

theorem find?_name_eq_none {α : Type} (f : α → String) (L : List α) (nm : String)
    (h : ∀ x ∈ L, f x ≠ nm) : L.find? (fun x => nm == f x) = none := by
  rw [List.find?_eq_none]
  intro x hx hbeq
  exact h x hx (beq_iff_eq.mp hbeq).symm

theorem find?_name_first {α : Type} (f : α → String) (l : List α) (p : α)
    (r : List α) (nm : String) (hp : f p = nm) (hl : ∀ q ∈ l, f q ≠ nm) :
    (l ++ p :: r).find? (fun x => nm == f x) = some p := by
  induction l with
  | nil => simp [List.find?, hp]
  | cons q l ih =>
    have hq : (nm == f q) = false := by
      rw [beq_eq_false_iff_ne]
      exact fun e => hl q (by simp) e.symm
    simp only [List.cons_append, List.find?, hq]
    exact ih fun q' hq' => hl q' (by simp [hq'])

/-- C3: `check_test_id_duplicate(candidates, run)` returns exactly the set
difference of the candidate ids and the case ids already in the run: the
result has no duplicates, and an id is in the result iff it is a candidate
and is not among the run's existing case ids. -/
theorem check_test_id_duplicate_is_set_difference (server : Server)
    (test_list : List Nat) (run_id : Nat) :
    ((check_test_id_duplicate server test_list run_id).1).Nodup ∧
    ∀ x, x ∈ (check_test_id_duplicate server test_list run_id).1 ↔
      (x ∈ test_list ∧ x ∉ (server.tests run_id).map (fun t => t.case_id)) := by
  constructor
  · exact (List.nodup_dedup _).filter _
  · intro x
    simp [check_test_id_duplicate, List.mem_filter, List.mem_dedup]

/-- C5: a session whose project (resp. suite) id has never been resolved
raises the `EnvironmentError` telling the caller to set the name first
when the `project_id` (resp. `suite_id`) property is read, and never the
`APIError`. -/
theorem unresolved_id_raises_config_error (sess : Session)
    (h1 : sess.project_id = none) (h2 : sess.suite_id = none) :
    project_id_prop sess = .error (.environmentError project_id_msg) ∧
    suite_id_prop sess = .error (.environmentError suite_id_msg) ∧
    (∀ m, project_id_prop sess ≠ .error (.apiError m)) ∧
    (∀ m, suite_id_prop sess ≠ .error (.apiError m)) := by
  simp [project_id_prop, suite_id_prop, h1, h2]

theorem unresolved_id_raises_config_error_witness :
    project_id_prop ⟨none, none, none, []⟩ =
      .error (.environmentError project_id_msg) ∧
    suite_id_prop ⟨none, none, none, []⟩ =
      .error (.environmentError suite_id_msg) ∧
    (∀ m, project_id_prop ⟨none, none, none, []⟩ ≠ .error (.apiError m)) ∧
    (∀ m, suite_id_prop ⟨none, none, none, []⟩ ≠ .error (.apiError m)) :=
  unresolved_id_raises_config_error ⟨none, none, none, []⟩ rfl rfl

/-- C9: name resolution never raises on a miss: when no project (resp. no
suite of the enumerated project) has a name exactly equal to `nm`, the
lookup returns the absent value; and matching is exact first-match: the
first project with exactly the name `nm` is returned. -/
theorem name_resolution_miss_is_absent (server : Server) (sess : Session)
    (nm : String) (pid : Option Nat) (spid : Nat)
    (hres : resolve_default_project_id sess pid = .ok spid) :
    ((∀ p ∈ server.projects, p.name ≠ nm) →
      (get_project_by_name server nm).1 = none) ∧
    ((∀ s ∈ server.suites spid, s.name ≠ nm) →
      (get_suite_by_name server sess nm pid).1 = .ok none) ∧
    (∀ l p r, server.projects = l ++ p :: r → p.name = nm →
      (∀ q ∈ l, q.name ≠ nm) → (get_project_by_name server nm).1 = some p) := by
  refine ⟨fun h => ?_, fun h => ?_, fun l p r hsplit hp hl => ?_⟩
  · simpa [get_project_by_name, get_projects] using
      find?_name_eq_none (fun p => p.name) server.projects nm h
  · simp only [get_suite_by_name, get_suites, hres]
    simpa using find?_name_eq_none (fun s => s.name) (server.suites spid) nm h
  · simpa [get_project_by_name, get_projects, hsplit] using
      find?_name_first (fun p => p.name) l p r nm hp hl

theorem name_resolution_miss_is_absent_witness :
    (get_project_by_name sampleServer "nope").1 = none ∧
    (get_suite_by_name sampleServer sampleSession "nope" (some 1)).1 = .ok none :=
  ⟨(name_resolution_miss_is_absent sampleServer sampleSession "nope" (some 1) 1
      rfl).1 (by decide),
   (name_resolution_miss_is_absent sampleServer sampleSession "nope" (some 1) 1
      rfl).2.1 (by decide)⟩

/-- C10: assigning the `run_id` property stores the id and replaces the
whole run-case cache by the single binding for the assigned run: the
fresh fetch is cached under the new id and every other id (in particular
any previously cached one) is no longer a key. -/
theorem set_run_id_replaces_whole_cache (server : Server) (sess : Session)
    (run_id r' : Nat) (h : r' ≠ run_id) :
    ((set_run_id server sess run_id).1).run_id = some run_id ∧
    cacheLookup ((set_run_id server sess run_id).1).cases_in_run run_id =
      some (server.tests run_id) ∧
    cacheLookup ((set_run_id server sess run_id).1).cases_in_run r' = none := by
  refine ⟨rfl, ?_, ?_⟩
  · simp [set_run_id, get_cases_in_run, cacheLookup, List.find?]
  · have hb : (run_id == r') = false := beq_eq_false_iff_ne.mpr (Ne.symm h)
    simp [set_run_id, get_cases_in_run, cacheLookup, List.find?, hb]

theorem set_run_id_replaces_whole_cache_witness :
    ((set_run_id sampleServer sampleSession 7).1).run_id = some 7 ∧
    cacheLookup ((set_run_id sampleServer sampleSession 7).1).cases_in_run 7 =
      some (sampleServer.tests 7) ∧
    cacheLookup ((set_run_id sampleServer sampleSession 7).1).cases_in_run 5 = none :=
  set_run_id_replaces_whole_cache sampleServer sampleSession 7 5 (by decide)

theorem check_case_in_run_fst (server : Server) (sess : Session)
    (run_id case_id : Nat) :
    (check_case_in_run server sess run_id case_id).1 =
      ((tc_list_of server sess run_id).find?
        (fun t => t.case_id == case_id)).map (fun t => t.id) := by
  rcases hc : cacheLookup sess.cases_in_run run_id with _ | l <;>
    simp [check_case_in_run, tc_list_of, get_cases_in_run, hc]

theorem check_case_in_run_snd_gets (server : Server) (sess : Session)
    (run_id case_id : Nat) :
    ∀ req ∈ (check_case_in_run server sess run_id case_id).2,
      req.method = Method.get := by
  rcases hc : cacheLookup sess.cases_in_run run_id with _ | l <;>
    simp [check_case_in_run, get_cases_in_run, hc]

/-- C6: when `case_id` is not among the case ids of the run's test list
(the cached list when present, else the freshly fetched one),
`update_test_result` returns `False`, raises nothing, and issues no POST
(every request of the call is a GET). -/
theorem update_test_result_absent_case_is_false (server : Server)
    (sess : Session) (run_id case_id : Nat) (report : Report)
    (h : ∀ t ∈ tc_list_of server sess run_id, t.case_id ≠ case_id) :
    (update_test_result server sess run_id case_id report).1 =
      .ok .bool_false ∧
    ∀ req ∈ (update_test_result server sess run_id case_id report).2.2,
      req.method = Method.get := by
  have hfind : (tc_list_of server sess run_id).find?
      (fun t => t.case_id == case_id) = none := by
    rw [List.find?_eq_none]
    intro t ht hbeq
    exact h t ht (beq_iff_eq.mp hbeq)
  have hres : (check_case_in_run server sess run_id case_id).1 = none := by
    rw [check_case_in_run_fst, hfind]; rfl
  constructor
  · simp only [update_test_result, hres]
  · intro req hreq
    apply check_case_in_run_snd_gets server sess run_id case_id
    simpa only [update_test_result, hres] using hreq

theorem update_test_result_absent_case_is_false_witness :
    (update_test_result sampleServer sampleSession 7 999 sampleReport).1 =
      .ok .bool_false ∧
    ∀ req ∈ (update_test_result sampleServer sampleSession 7 999 sampleReport).2.2,
      req.method = Method.get :=
  update_test_result_absent_case_is_false sampleServer sampleSession 7 999
    sampleReport (by decide)

theorem check_case_in_run_snd_miss (server : Server) (sess : Session)
    (run_id case_id : Nat) (h : cacheLookup sess.cases_in_run run_id = none) :
    (check_case_in_run server sess run_id case_id).2 =
      [⟨Method.get, "get_tests/" ++ toString run_id, none⟩] := by
  simp [check_case_in_run, get_cases_in_run, h]

theorem update_test_result_session_unchanged (server : Server) (sess : Session)
    (run_id case_id : Nat) (report : Report) :
    (update_test_result server sess run_id case_id report).2.1 = sess := by
  cases hc : (check_case_in_run server sess run_id case_id).1 with
  | none => simp [update_test_result, hc]
  | some t => by_cases ht : t = 0 <;> simp [update_test_result, hc, ht]

theorem update_test_result_log_mem_fetch (server : Server) (sess : Session)
    (run_id case_id : Nat) (report : Report)
    (h : cacheLookup sess.cases_in_run run_id = none) :
    (⟨Method.get, "get_tests/" ++ toString run_id, none⟩ : Request) ∈
      (update_test_result server sess run_id case_id report).2.2 := by
  have hs := check_case_in_run_snd_miss server sess run_id case_id h
  cases hc : (check_case_in_run server sess run_id case_id).1 with
  | none => simp [update_test_result, hc, hs]
  | some t => by_cases ht : t = 0 <;> simp [update_test_result, hc, ht, hs]

/-- C2 (amended): on a run id missing from the run-case cache,
`update_test_result` fetches the run's test list from the server, but does
NOT store it: the session (hence the cache) is returned unchanged, and a
second call with the same run id fetches again.  Only the `run_id`
property setter populates the cache. -/
theorem update_test_result_fetch_without_caching (server : Server)
    (sess : Session) (run_id case_id : Nat) (report : Report)
    (h : cacheLookup sess.cases_in_run run_id = none) :
    (update_test_result server sess run_id case_id report).2.1 = sess ∧
    (⟨Method.get, "get_tests/" ++ toString run_id, none⟩ : Request) ∈
      (update_test_result server sess run_id case_id report).2.2 ∧
    (⟨Method.get, "get_tests/" ++ toString run_id, none⟩ : Request) ∈
      (update_test_result server
        ((update_test_result server sess run_id case_id report).2.1)
        run_id case_id report).2.2 := by
  refine ⟨update_test_result_session_unchanged server sess run_id case_id report,
    update_test_result_log_mem_fetch server sess run_id case_id report h, ?_⟩
  rw [update_test_result_session_unchanged server sess run_id case_id report]
  exact update_test_result_log_mem_fetch server sess run_id case_id report h

theorem update_test_result_fetch_without_caching_witness :
    (update_test_result sampleServer sampleSession 7 100 sampleReport).2.1 =
      sampleSession ∧
    (⟨Method.get, "get_tests/" ++ toString 7, none⟩ : Request) ∈
      (update_test_result sampleServer sampleSession 7 100 sampleReport).2.2 ∧
    (⟨Method.get, "get_tests/" ++ toString 7, none⟩ : Request) ∈
      (update_test_result sampleServer
        ((update_test_result sampleServer sampleSession 7 100 sampleReport).2.1)
        7 100 sampleReport).2.2 :=
  update_test_result_fetch_without_caching sampleServer sampleSession 7 100
    sampleReport rfl

theorem update_test_result_does_not_populate_cache_counterexample :
    cacheLookup
      ((update_test_result sampleServer sampleSession 7 100 sampleReport).2.1).cases_in_run
      7 ≠ some (sampleServer.tests 7) ∧
    (⟨Method.get, "get_tests/7", none⟩ : Request) ∈
      (update_test_result sampleServer
        ((update_test_result sampleServer sampleSession 7 100 sampleReport).2.1)
        7 100 sampleReport).2.2 := by
  decide

theorem result_map_get_mem (o : String) :
    dictGetD result_map o 5 = 1 ∨ dictGetD result_map o 5 = 5 := by
  by_cases h1 : (("passed" : String) == o) = true
  · left
    simp [dictGetD, result_map, List.find?, h1]
  · rw [Bool.not_eq_true] at h1
    by_cases h2 : (("failed" : String) == o) = true
    · right
      simp [dictGetD, result_map, List.find?, h1, h2]
    · rw [Bool.not_eq_true] at h2
      right
      simp [dictGetD, result_map, List.find?, h1, h2]

/-- C4: `result_map` maps "passed" to 1, "failed" to 5, and
`.get(outcome, 5)` maps every other outcome to 5; and when `case_id`
resolves (truthily, as the code tests it) to test id `T`,
`update_test_result` POSTs exactly one result record whose `test_id` is
`T` and whose `status_id` is the mapped value, which is 1 or 5. -/
theorem update_test_result_posts_mapped_status (server : Server)
    (sess : Session) (run_id case_id : Nat) (report : Report) (T : Nat)
    (h1 : (check_case_in_run server sess run_id case_id).1 = some T)
    (h2 : T ≠ 0) :
    dictGetD result_map "passed" 5 = 1 ∧
    dictGetD result_map "failed" 5 = 5 ∧
    (∀ o, o ≠ "passed" → o ≠ "failed" → dictGetD result_map o 5 = 5) ∧
    (update_test_result server sess run_id case_id report).1 = .ok .posted ∧
    (update_test_result server sess run_id case_id report).2.2 =
      (check_case_in_run server sess run_id case_id).2 ++
      [⟨Method.post, "add_results/" ++ toString run_id,
        some (.results ⟨[⟨T, dictGetD result_map report.outcome 5,
          strftimeHMS report.duration, report.longreprtext⟩]⟩)⟩] ∧
    (dictGetD result_map report.outcome 5 = 1 ∨
     dictGetD result_map report.outcome 5 = 5) := by
  have hb : (T == 0) = false := beq_eq_false_iff_ne.mpr h2
  refine ⟨rfl, rfl, fun o ho1 ho2 => ?_, ?_, ?_, result_map_get_mem report.outcome⟩
  · have hb1 : (("passed" : String) == o) = false :=
      beq_eq_false_iff_ne.mpr (Ne.symm ho1)
    have hb2 : (("failed" : String) == o) = false :=
      beq_eq_false_iff_ne.mpr (Ne.symm ho2)
    simp [dictGetD, result_map, List.find?, hb1, hb2]
  · simp [update_test_result, h1, hb]
  · simp [update_test_result, h1, hb]

theorem update_test_result_posts_mapped_status_witness :
    (update_test_result sampleServer sampleSession 7 100 sampleReport).1 =
      .ok .posted ∧
    (update_test_result sampleServer sampleSession 7 100 sampleReport).2.2 =
      (check_case_in_run sampleServer sampleSession 7 100).2 ++
      [⟨Method.post, "add_results/" ++ toString 7,
        some (.results ⟨[⟨70, dictGetD result_map sampleReport.outcome 5,
          strftimeHMS sampleReport.duration, sampleReport.longreprtext⟩]⟩)⟩] :=
  ⟨(update_test_result_posts_mapped_status sampleServer sampleSession 7 100
      sampleReport 70 (by decide) (by decide)).2.2.2.1,
   (update_test_result_posts_mapped_status sampleServer sampleSession 7 100
      sampleReport 70 (by decide) (by decide)).2.2.2.2.1⟩

/-- C1: the empty-case-ids guard of `add_default_test_run_entry_to_plan`
is dead code.  With `case_ids = []` the code sets `include_all = True`
(an empty list is falsy), so `not include_all and not case_ids` is never
true: instead of returning `False` with no HTTP traffic, the call looks
the plan up (GET) and POSTs a plan entry whose nested run has
`include_all = False` and an empty case list — exactly the empty run the
guard's comment says it prevents. -/
theorem add_default_entry_empty_case_ids_still_posts :
    add_default_test_run_entry_to_plan sampleServer sampleSession "r" "myplan"
      (some []) "2026-10-12 00:00" =
    (.ok .posted,
     [⟨Method.get, "get_plans/1", none⟩,
      ⟨Method.post, "add_plan_entry/3",
       some (.planEntry ⟨2, "2026-10-12 00:00 - r", none, true, [], some [],
         [⟨false, some [], []⟩]⟩)⟩]) := by
  rfl

theorem scan_entries_no_match (run_name : String) (L : List Entry)
    (h : ∀ e ∈ L, ∃ r0 t, e.runs = r0 :: t ∧ pyIn run_name r0.name = false) :
    scan_entries run_name L = .ok none := by
  induction L with
  | nil => rfl
  | cons e rest ih =>
    obtain ⟨r0, t, hr, hf⟩ := h e (by simp)
    simp only [scan_entries, hr, hf, Bool.false_eq_true, if_false]
    exact ih fun e' he' => h e' (by simp [he'])

theorem scan_entries_first_match (run_name : String) (l : List Entry)
    (e : Entry) (r : List Entry) (r0 : Run) (t : List Run)
    (hr : e.runs = r0 :: t) (hm : pyIn run_name r0.name = true)
    (hl : ∀ e' ∈ l, ∃ r0' t', e'.runs = r0' :: t' ∧
      pyIn run_name r0'.name = false) :
    scan_entries run_name (l ++ e :: r) = .ok (some r0.id) := by
  induction l with
  | nil => simp [scan_entries, hr, hm]
  | cons q l ih =>
    obtain ⟨r0', t', hq, hf⟩ := hl q (by simp)
    simp only [List.cons_append, scan_entries, hq, hf, Bool.false_eq_true, if_false]
    exact ih fun e' he' => hl e' (by simp [he'])

theorem scan_entries_ok (run_name : String) (L : List Entry)
    (h : ∀ e ∈ L, e.runs ≠ []) :
    ∃ o, scan_entries run_name L = .ok o := by
  induction L with
  | nil => exact ⟨none, rfl⟩
  | cons e rest ih =>
    rcases hr : e.runs with _ | ⟨r0, t⟩
    · exact absurd hr (h e (by simp))
    · by_cases hm : pyIn run_name r0.name = true
      · exact ⟨some r0.id, by simp [scan_entries, hr, hm]⟩
      · rw [Bool.not_eq_true] at hm
        obtain ⟨o, ho⟩ := ih fun e' he' => h e' (by simp [he'])
        exact ⟨o, by simp only [scan_entries, hr, hm, Bool.false_eq_true, if_false]; exact ho⟩

theorem get_run_id_eq_scan (server : Server) (sess : Session)
    (plan_name run_name : String) (plan pd : Plan)
    (hp : (get_plan_by_name server sess plan_name none).1 = .ok (some plan))
    (hd : (get_plan server plan.id).1 = .ok pd) :
    (get_run_id server sess plan_name run_name).1 =
      scan_entries run_name pd.entries := by
  simp only [get_run_id, hp, hd]

/-- C8: `get_run_id(plan_name, run_name)` resolves the plan by name,
scans its entries in order, and returns the id of the first run of the
first entry whose first run's name contains `run_name` as a substring;
when no entry's first run's name contains it, the absent value (`None`)
is returned. -/
theorem get_run_id_first_substring_match (server : Server) (sess : Session)
    (plan_name run_name : String) (plan pd : Plan)
    (hp : (get_plan_by_name server sess plan_name none).1 = .ok (some plan))
    (hd : (get_plan server plan.id).1 = .ok pd) :
    ((∀ e ∈ pd.entries, ∃ r0 t, e.runs = r0 :: t ∧
        pyIn run_name r0.name = false) →
      (get_run_id server sess plan_name run_name).1 = .ok none) ∧
    (∀ l e r r0 t, pd.entries = l ++ e :: r → e.runs = r0 :: t →
      pyIn run_name r0.name = true →
      (∀ e' ∈ l, ∃ r0' t', e'.runs = r0' :: t' ∧
        pyIn run_name r0'.name = false) →
      (get_run_id server sess plan_name run_name).1 = .ok (some r0.id)) := by
  constructor
  · intro h
    rw [get_run_id_eq_scan server sess plan_name run_name plan pd hp hd]
    exact scan_entries_no_match run_name pd.entries h
  · intro l e r r0 t hsplit hr hm hl
    rw [get_run_id_eq_scan server sess plan_name run_name plan pd hp hd, hsplit]
    exact scan_entries_first_match run_name l e r r0 t hr hm hl

theorem get_run_id_first_substring_match_witness :
    (get_run_id sampleServer sampleSession "myplan" "run1").1 =
      .ok (some sampleRun.id) :=
  (get_run_id_first_substring_match sampleServer sampleSession "myplan" "run1"
      samplePlan samplePlan rfl rfl).2
    [] sampleEntry [] sampleRun [] rfl rfl (by decide) (by simp)

theorem update_test_run_all_duplicates_counterexample :
    pyIn "run1" sampleEntry.name = true ∧
    (update_test_run sampleServer sampleSession "run1" "myplan" [100]).1 =
      .ok .bool_false ∧
    ∀ req ∈ (update_test_run sampleServer sampleSession "run1" "myplan" [100]).2,
      req.method = Method.get := by
  refine ⟨rfl, rfl, ?_⟩
  decide

theorem get_plans_snd_gets (server : Server) (sess : Session)
    (pid : Option Nat) :
    ∀ req ∈ (get_plans server sess pid).2, req.method = Method.get := by
  cases hr : resolve_default_project_id sess pid <;> simp [get_plans, hr]

theorem get_plan_by_name_snd (server : Server) (sess : Session)
    (plan_name : String) (pid : Option Nat) :
    (get_plan_by_name server sess plan_name pid).2 =
      (get_plans server sess pid).2 := by
  cases hg : (get_plans server sess pid).1 <;> simp [get_plan_by_name, hg]

theorem get_plan_snd (server : Server) (plan_id : Nat) :
    (get_plan server plan_id).2 =
      [⟨Method.get, "get_plan/" ++ toString plan_id, none⟩] := rfl

theorem get_run_id_snd_gets (server : Server) (sess : Session)
    (plan_name run_name : String) :
    ∀ req ∈ (get_run_id server sess plan_name run_name).2,
      req.method = Method.get := by
  intro req hreq
  have h2 := get_plan_by_name_snd server sess plan_name none
  cases hg : (get_plan_by_name server sess plan_name none).1 with
  | error e =>
    simp only [get_run_id, hg] at hreq
    rw [h2] at hreq
    exact get_plans_snd_gets server sess none req hreq
  | ok op =>
    cases op with
    | none =>
      simp only [get_run_id, hg] at hreq
      rw [h2] at hreq
      exact get_plans_snd_gets server sess none req hreq
    | some plan =>
      have hmem : req ∈ (get_plan_by_name server sess plan_name none).2 ++
          (get_plan server plan.id).2 := by
        cases hc : (get_plan server plan.id).1 <;>
          simpa only [get_run_id, hg, hc] using hreq
      rw [h2, get_plan_snd] at hmem
      rcases List.mem_append.mp hmem with h | h
      · exact get_plans_snd_gets server sess none req h
      · rw [List.mem_singleton] at h
        rw [h]

/-- C7 (amended): in `update_test_run`, when no stored plan entry's name
contains `test_run_name` as a substring the operation returns `False`;
otherwise, for the first matching entry, if every incoming case id is
already among the run's case ids the operation also returns `False` and
posts nothing, and else it POSTs a plan-entry update whose body has
`include_all = False` and whose case-id list is, as a set, the
deduplicated incoming ids (incoming minus those already in the run)
merged with the case ids already present in the run. -/
theorem update_test_run_merges_new_and_existing (server : Server)
    (sess : Session) (test_run_name plan_name : String) (case_ids : List Nat)
    (plan pd : Plan)
    (hp : (get_plan_by_name server sess plan_name none).1 = .ok (some plan))
    (hd : (get_plan server plan.id).1 = .ok pd)
    (hruns : ∀ e ∈ pd.entries, e.runs ≠ []) :
    (pd.entries.find? (fun e => pyIn test_run_name e.name) = none →
      (update_test_run server sess test_run_name plan_name case_ids).1 =
        .ok .bool_false) ∧
    (∀ elem r0 t rid,
      pd.entries.find? (fun e => pyIn test_run_name e.name) = some elem →
      elem.runs = r0 :: t →
      (get_run_id server sess plan_name test_run_name).1 = .ok (some rid) →
      ((check_test_id_duplicate server case_ids rid).1 = [] →
        (update_test_run server sess test_run_name plan_name case_ids).1 =
          .ok .bool_false ∧
        ∀ req ∈ (update_test_run server sess test_run_name plan_name case_ids).2,
          req.method = Method.get) ∧
      ((check_test_id_duplicate server case_ids rid).1 ≠ [] →
        (update_test_run server sess test_run_name plan_name case_ids).1 =
          .ok .posted ∧
        (⟨Method.post,
          "update_plan_entry/" ++ toString plan.id ++ "/" ++ toString r0.entry_id,
          some (.updatePlanEntry ⟨false,
            (check_test_id_duplicate server case_ids rid).1 ++
              (server.tests rid).map (fun tc => tc.case_id)⟩)⟩ : Request) ∈
          (update_test_run server sess test_run_name plan_name case_ids).2 ∧
        (∀ x, x ∈ (check_test_id_duplicate server case_ids rid).1 ++
              (server.tests rid).map (fun tc => tc.case_id) ↔
          ((x ∈ case_ids ∧ x ∉ (server.tests rid).map (fun tc => tc.case_id)) ∨
            x ∈ (server.tests rid).map (fun tc => tc.case_id))))) := by
  have hscan : (get_run_id server sess plan_name test_run_name).1 =
      scan_entries test_run_name pd.entries :=
    get_run_id_eq_scan server sess plan_name test_run_name plan pd hp hd
  constructor
  · intro hno
    obtain ⟨o, ho⟩ := scan_entries_ok test_run_name pd.entries hruns
    have hgr : (get_run_id server sess plan_name test_run_name).1 = .ok o :=
      hscan.trans ho
    simp only [update_test_run, hgr, hp, hd, hno]
  · intro elem r0 t rid hfind hre hrid
    constructor
    · intro hnew
      have hemp : (check_test_id_duplicate server case_ids rid).1.isEmpty = true := by
        rw [hnew]; rfl
      constructor
      · simp only [update_test_run, hrid, hp, hd, hfind, hre, hemp, if_true]
      · intro req hreq
        simp only [update_test_run, hrid, hp, hd, hfind, hre, hemp, if_true] at hreq
        rcases List.mem_append.mp hreq with h | h
        · rcases List.mem_append.mp h with h | h
          · rcases List.mem_append.mp h with h | h
            · exact get_run_id_snd_gets server sess plan_name test_run_name req h
            · rw [get_plan_by_name_snd] at h
              exact get_plans_snd_gets server sess none req h
          · rw [get_plan_snd, List.mem_singleton] at h
            rw [h]
        · have hc : (check_test_id_duplicate server case_ids rid).2 =
              [⟨Method.get, "get_tests/" ++ toString rid, none⟩] := rfl
          rw [hc, List.mem_singleton] at h
          rw [h]
    · intro hnew
      have hemp : (check_test_id_duplicate server case_ids rid).1.isEmpty = false := by
        rcases hh : (check_test_id_duplicate server case_ids rid).1 with _ | ⟨a, l⟩
        · exact absurd hh hnew
        · rfl
      refine ⟨?_, ?_, ?_⟩
      · simp only [update_test_run, hrid, hp, hd, hfind, hre, hemp, Bool.false_eq_true,
          if_false]
      · simp only [update_test_run, hrid, hp, hd, hfind, hre, hemp, Bool.false_eq_true,
          if_false, get_cases_in_run]
        exact List.mem_append.mpr (Or.inr (List.mem_singleton_self _))
      · intro x
        simp [check_test_id_duplicate, List.mem_filter, List.mem_dedup, List.mem_append]

theorem update_test_run_merges_new_and_existing_witness :
    (update_test_run sampleServer sampleSession "run1" "myplan" [100, 200]).1 =
      .ok .posted :=
  (((update_test_run_merges_new_and_existing sampleServer sampleSession "run1"
        "myplan" [100, 200] samplePlan samplePlan rfl rfl (by decide)).2
      sampleEntry sampleRun [] 7 rfl rfl rfl).2 (by decide)).1
